import Mathlib

/-!
Verification development for the RustPanel monitoring backend.

The repository ships only documentation and the React dashboard
(`ui/src/App.tsx`); the Rust backend (credential store, authenticator,
token validator, metrics sampler, process enumerator, API layer) is not
present in the source tree, so those components are modelled from the
specification. The client-side state machine is embedded from
`ui/src/App.tsx`.
-/

namespace RustPanel

/-! ## Credential store and authenticator -/

/-- Modelled from the spec: the backend's salted one-way password hash
(bcrypt per the README) is absent from the repository; it is modelled
abstractly as an injective tagged encoding, so that the stored value is
a hash distinct from the plaintext and verification recomputes and
compares it. -/
def hashPassword (password : String) : String :=
  "bcrypt$" ++ password

/-- Modelled from the spec: a durable user record, {username (unique),
password_hash}. -/
structure UserRecord where
  username : String
  password_hash : String
deriving DecidableEq

/-- Modelled from the spec: the error taxonomy of §7 for the
auth-related kinds. -/
inductive AuthError where
  | InvalidCredentials
  | MissingToken
  | MalformedToken
  | ExpiredToken
deriving DecidableEq

/-- Modelled from the spec: an ideal MAC over the signed payload
(subject and the two timestamps) under a process-wide secret key;
verification recomputes the signature and compares. -/
structure Signature where
  key : String
  sub : String
  iat : Nat
  exp : Nat
deriving DecidableEq

/-- Modelled from the spec: signing a token payload with a secret. -/
def sign (secret subject : String) (iat exp : Nat) : Signature :=
  ⟨secret, subject, iat, exp⟩

/-- Modelled from the spec: Token = {subject, issued_at, expires_at,
signature}; immutable, held only by the client. -/
structure Token where
  subject : String
  issued_at : Nat
  expires_at : Nat
  signature : Signature
deriving DecidableEq

/-- Modelled from the spec: the credential store lookup by username,
case-sensitive exact match. -/
def findUser (store : List UserRecord) (username : String) : Option UserRecord :=
  store.find? (fun u => u.username == username)

/-- Modelled from the spec: the fixed token lifetime (a configurable
number of hours; 24h here), in seconds. -/
def tokenDuration : Nat := 24 * 60 * 60

/-- Modelled from the spec: `authenticate(username, password) -> Token | AuthError`.
Looks up the record, verifies the password against the stored hash, and on
success issues a signed token expiring a fixed duration from issuance.
Absent user and wrong password both yield `InvalidCredentials`. -/
def authenticate (store : List UserRecord) (username password secret : String)
    (now : Nat) : Except AuthError Token :=
  match findUser store username with
  | none => .error .InvalidCredentials
  | some u =>
    if hashPassword password == u.password_hash then
      .ok { subject := u.username
            issued_at := now
            expires_at := now + tokenDuration
            signature := sign secret u.username now (now + tokenDuration) }
    else
      .error .InvalidCredentials

/-- Modelled from the spec: `validate(token) -> Subject | AuthError`, a pure
function of (token, signing secret, current time). Checks follow the order of
the §4.2 contract: `MissingToken` when no bearer token is present,
`MalformedToken` when the signature does not verify against the signing
secret, `ExpiredToken` when `now >= expires_at`; otherwise the subject. -/
def validate (bearer : Option Token) (secret : String) (now : Nat) :
    Except AuthError String :=
  match bearer with
  | none => .error .MissingToken
  | some t =>
    if t.signature ≠ sign secret t.subject t.issued_at t.expires_at then
      .error .MalformedToken
    else if t.expires_at ≤ now then
      .error .ExpiredToken
    else
      .ok t.subject

/-- Modelled from the spec: the fixed default identity provisioned on
first run (README: `admin` / `password`). -/
def defaultUsername : String := "admin"

/-- Modelled from the spec: the default password, hashed before storage. -/
def defaultPassword : String := "password"

/-- Modelled from the spec: first-run provisioning — if the credential
store is empty at startup, create exactly one record with the default
identity, hashed before storage; otherwise leave the store unchanged.
This is the only store-writing operation of the core. -/
def provision (store : List UserRecord) : List UserRecord :=
  if store.isEmpty then
    [{ username := defaultUsername, password_hash := hashPassword defaultPassword }]
  else store

/-! ## Metrics sampler -/

/-- Modelled from the spec: the raw quantities one OS query pass yields —
two windowed CPU counter readings (busy delta and total delta over the
sampling window), memory and disk totals/used for the primary volume, and
host identity. -/
structure RawSample where
  cpu_busy_delta : Nat
  cpu_total_delta : Nat
  total_memory_bytes : Nat
  used_memory_bytes : Nat
  total_disk_bytes : Nat
  used_disk_bytes : Nat
  os_name : String
  host_name : String
deriving DecidableEq

/-- Modelled from the spec: every percentage is derived as
`used/total*100`, and 0 when the total is 0, to avoid division by zero. -/
def percentOf (used total : Nat) : ℚ :=
  if total = 0 then 0 else (used : ℚ) / (total : ℚ) * 100

/-- Modelled from the spec: SystemMetricsSnapshot, a value object never
mutated after creation and never persisted. -/
structure SystemMetricsSnapshot where
  cpu_usage_percent : ℚ
  total_memory_bytes : Nat
  used_memory_bytes : Nat
  memory_usage_percent : ℚ
  total_disk_bytes : Nat
  used_disk_bytes : Nat
  disk_usage_percent : ℚ
  os_name : String
  host_name : String
deriving DecidableEq

/-- Modelled from the spec: the non-auth error kind of §7's taxonomy
raised by the sampler and enumerator. -/
inductive MetricsError where
  | MetricsUnavailable
deriving DecidableEq

/-- Modelled from the spec: building the snapshot from one raw query
pass; the CPU percentage is the windowed delta ratio, memory and disk
percentages are derived from used/total. -/
def mkSnapshot (r : RawSample) : SystemMetricsSnapshot :=
  { cpu_usage_percent := percentOf r.cpu_busy_delta r.cpu_total_delta
    total_memory_bytes := r.total_memory_bytes
    used_memory_bytes := r.used_memory_bytes
    memory_usage_percent := percentOf r.used_memory_bytes r.total_memory_bytes
    total_disk_bytes := r.total_disk_bytes
    used_disk_bytes := r.used_disk_bytes
    disk_usage_percent := percentOf r.used_disk_bytes r.total_disk_bytes
    os_name := r.os_name
    host_name := r.host_name }

/-- Modelled from the spec: `sample() -> SystemMetricsSnapshot`. The OS
query is represented by its outcome: `none` when it timed out or failed,
in which case the call fails with `MetricsUnavailable` rather than
returning a stale or zeroed snapshot. -/
def sample (reading : Option RawSample) :
    Except MetricsError SystemMetricsSnapshot :=
  match reading with
  | none => .error .MetricsUnavailable
  | some r => .ok (mkSnapshot r)

/-! ## Process enumerator -/

/-- Modelled from the spec: ProcessSnapshot = {pid, name,
cpu_usage_percent, memory_bytes}, one per observed process. -/
structure ProcessSnapshot where
  pid : Nat
  name : String
  cpu_usage_percent : ℚ
  memory_bytes : Nat
deriving DecidableEq

/-- Modelled from the spec: the enumerator's ordering — descending by
CPU usage percentage, tie-broken by ascending pid. -/
def procLE (a b : ProcessSnapshot) : Bool :=
  decide (b.cpu_usage_percent < a.cpu_usage_percent ∨
    (a.cpu_usage_percent = b.cpu_usage_percent ∧ a.pid ≤ b.pid))

/-- Modelled from the spec: the default top-N cap (configurable; the
spec suggests top 20 as a sane default). -/
def defaultProcessLimit : Nat := 20

/-- Modelled from the spec: sorting the full enumerated process set
descending by CPU usage, ties by ascending pid. -/
def sortProcesses (ps : List ProcessSnapshot) : List ProcessSnapshot :=
  ps.mergeSort procLE

/-- Modelled from the spec: the pure core of `topProcesses(limit)` on an
already-enumerated process set — sort the full set and keep only the
first `limit` entries. -/
def topProcessesOf (limit : Nat) (ps : List ProcessSnapshot) :
    List ProcessSnapshot :=
  (sortProcesses ps).take limit

/-- Modelled from the spec: `topProcesses(limit) -> ordered sequence of
ProcessSnapshot`; fails with `MetricsUnavailable` under the same
conditions as `sample` (the OS enumeration outcome is `none`). -/
def topProcesses (limit : Nat) (reading : Option (List ProcessSnapshot)) :
    Except MetricsError (List ProcessSnapshot) :=
  match reading with
  | none => .error .MetricsUnavailable
  | some ps => .ok (topProcessesOf limit ps)

/-! ## API layer -/

/-- Modelled from the spec: the three routes of §6. `login` carries the
credentials body; the two protected routes carry the optional bearer
token extracted from the `Authorization` header (`none` when the header
is absent or carries no bearer token). -/
inductive Request where
  | login (username password : String)
  | system (bearer : Option Token)
  | processes (bearer : Option Token)
deriving DecidableEq

/-- Modelled from the spec: the response payload shapes of §6, plus the
small generic error body that carries no distinguishing detail. -/
inductive ResponseBody where
  | tokenBody (token : Token)
  | systemBody (snap : SystemMetricsSnapshot)
  | processesBody (procs : List ProcessSnapshot)
  | errorBody
deriving DecidableEq

/-- Modelled from the spec: an HTTP response, status plus body. -/
structure Response where
  status : Nat
  body : ResponseBody
deriving DecidableEq

/-- Modelled from the spec: the API layer. Routes requests, gates every
route except login through `validate`, maps any auth failure to 401 with
a generic body, maps `MetricsUnavailable` to 503, and marshals success
payloads with status 200. -/
def handleRequest (store : List UserRecord) (secret : String) (now : Nat)
    (sysReading : Option RawSample)
    (procReading : Option (List ProcessSnapshot)) (limit : Nat) :
    Request → Response
  | .login username password =>
    match authenticate store username password secret now with
    | .ok t => ⟨200, .tokenBody t⟩
    | .error _ => ⟨401, .errorBody⟩
  | .system bearer =>
    match validate bearer secret now with
    | .error _ => ⟨401, .errorBody⟩
    | .ok _ =>
      match sample sysReading with
      | .error _ => ⟨503, .errorBody⟩
      | .ok snap => ⟨200, .systemBody snap⟩
  | .processes bearer =>
    match validate bearer secret now with
    | .error _ => ⟨401, .errorBody⟩
    | .ok _ =>
      match topProcesses limit procReading with
      | .error _ => ⟨503, .errorBody⟩
      | .ok ps => ⟨200, .processesBody ps⟩

/-! ## Client (embedded from `ui/src/App.tsx`) -/

/-- One entry of the client's rolling history window
(`{ time, cpu, mem }` in `App.tsx`). -/
structure HistoryEntry where
  time : String
  cpu : ℚ
  mem : ℚ
deriving DecidableEq

/-- The client state of `App.tsx`: the persisted `localStorage` token,
the in-memory `token`, `metrics`, `processes` and `history` React
state. -/
structure ClientState where
  localStorageToken : Option String
  token : Option String
  metrics : Option SystemMetricsSnapshot
  processes : List ProcessSnapshot
  history : List HistoryEntry
deriving DecidableEq

/-- The `Authorization` header the axios effect derives from the
in-memory token (`App.tsx` lines 39-45): set to `Bearer <token>` when a
token is present, deleted otherwise. -/
def authHeader (s : ClientState) : Option String :=
  s.token.map (fun t => "Bearer " ++ t)

/-- `handleLogout` (`App.tsx` lines 60-64): removes the token from
localStorage, clears the in-memory token and clears the metrics. -/
def handleLogout (s : ClientState) : ClientState :=
  { s with localStorageToken := none, token := none, metrics := none }

/-- The outcome the client observes from one `fetchData` round trip:
either fresh data (processes only when the processes tab was active), or
a failure carrying the HTTP status when the error had a response. -/
inductive FetchOutcome where
  | success (sys : SystemMetricsSnapshot) (procs : Option (List ProcessSnapshot))
  | failure (status : Option Nat)
deriving DecidableEq

/-- The history update inside `fetchData` (`App.tsx` lines 74-80):
append the new entry and drop the oldest once the window exceeds 20. -/
def pushHistory (prev : List HistoryEntry) (entry : HistoryEntry) :
    List HistoryEntry :=
  let newHistory := prev ++ [entry]
  if 20 < newHistory.length then newHistory.tail else newHistory

/-- `fetchData` (`App.tsx` lines 66-94) as a state transition: it
returns immediately when no token is held; on success it stores the
metrics, pushes history and stores processes when they were fetched; on
an error with HTTP status 401 it calls `handleLogout`, otherwise it
leaves the state unchanged. -/
def fetchDataStep (s : ClientState) (timeLabel : String)
    (outcome : FetchOutcome) : ClientState :=
  match s.token with
  | none => s
  | some _ =>
    match outcome with
    | .success sys procs =>
      let s' := { s with
        metrics := some sys
        history := pushHistory s.history
          ⟨timeLabel, sys.cpu_usage_percent, sys.memory_usage_percent⟩ }
      match procs with
      | none => s'
      | some ps => { s' with processes := ps }
    | .failure status =>
      if status = some 401 then handleLogout s else s

/-! ## Helper lemmas -/

lemma findUser_username {store : List UserRecord} {username : String}
    {u : UserRecord} (hfind : findUser store username = some u) :
    u.username = username := by
  unfold findUser at hfind
  have h := List.find?_some hfind
  exact eq_of_beq h

lemma validate_ok_of_wellsigned {t : Token} {secret : String} {now : Nat}
    (hsig : t.signature = sign secret t.subject t.issued_at t.expires_at)
    (hexp : now < t.expires_at) :
    validate (some t) secret now = .ok t.subject := by
  simp [validate, hsig, Nat.not_le.mpr hexp]

lemma validate_isError_of_expired {t : Token} {secret : String} {now : Nat}
    (h : t.expires_at ≤ now) :
    ∃ e, validate (some t) secret now = .error e := by
  by_cases hs : t.signature = sign secret t.subject t.issued_at t.expires_at
  · exact ⟨.ExpiredToken, by simp [validate, hs, h]⟩
  · exact ⟨.MalformedToken, by simp [validate, hs]⟩

lemma handleRequest_system_401 {store : List UserRecord} {secret : String}
    {now limit : Nat} {sysReading : Option RawSample}
    {procReading : Option (List ProcessSnapshot)} {bearer : Option Token}
    {e : AuthError} (hv : validate bearer secret now = .error e) :
    (handleRequest store secret now sysReading procReading limit
      (.system bearer)).status = 401 := by
  simp [handleRequest, hv]

lemma handleRequest_processes_401 {store : List UserRecord} {secret : String}
    {now limit : Nat} {sysReading : Option RawSample}
    {procReading : Option (List ProcessSnapshot)} {bearer : Option Token}
    {e : AuthError} (hv : validate bearer secret now = .error e) :
    (handleRequest store secret now sysReading procReading limit
      (.processes bearer)).status = 401 := by
  simp [handleRequest, hv]

/-! ## Claim theorems -/

/-- C1: for every (username, password) pair whose username is in the
credential store with a matching stored hash, `authenticate` returns a
token whose subject is that username, and `validate` on that token, at
any time before its expiry and with the same signing secret, succeeds
and returns the same subject. -/
theorem c1_authenticate_validate_roundtrip (store : List UserRecord)
    (username password secret : String) (now later : Nat) (u : UserRecord)
    (hfind : findUser store username = some u)
    (hpw : hashPassword password = u.password_hash) :
    ∃ t : Token, authenticate store username password secret now = .ok t ∧
      t.subject = username ∧
      (later < t.expires_at → validate (some t) secret later = .ok username) := by
  have hu : u.username = username := findUser_username hfind
  subst hu
  refine ⟨{ subject := u.username
            issued_at := now
            expires_at := now + tokenDuration
            signature := sign secret u.username now (now + tokenDuration) },
    ?_, rfl, ?_⟩
  · simp [authenticate, hfind, hpw]
  · intro hlt
    exact validate_ok_of_wellsigned rfl hlt

/-- C1 witness: on the provisioned store, `("admin", "password")`
authenticates at time 0 and the issued token validates at time 5 with
the same subject. -/
theorem c1_witness :
    ∃ t : Token,
      authenticate (provision []) "admin" "password" "topsecret" 0 = .ok t ∧
      t.subject = "admin" ∧
      (5 < t.expires_at → validate (some t) "topsecret" 5 = .ok "admin") := by
  obtain ⟨t, h1, h2, h3⟩ :=
    c1_authenticate_validate_roundtrip (provision []) "admin" "password"
      "topsecret" 0 5 ⟨"admin", hashPassword "password"⟩ (by decide) rfl
  exact ⟨t, h1, h2, fun h => h3 h⟩

/-- C5: `authenticate` returns the identical error value
`InvalidCredentials` both when the username is absent from the store and
when it is present but the password does not match the stored hash. -/
theorem c5_invalid_credentials_indistinguishable (store : List UserRecord)
    (username password secret : String) (now : Nat) :
    (findUser store username = none →
      authenticate store username password secret now =
        .error .InvalidCredentials) ∧
    (∀ u, findUser store username = some u →
      hashPassword password ≠ u.password_hash →
      authenticate store username password secret now =
        .error .InvalidCredentials) := by
  constructor
  · intro h
    simp [authenticate, h]
  · intro u h hne
    simp [authenticate, h, hne]

/-- C5 witness: on the provisioned store, an unknown username and a
known username with a wrong password both yield `InvalidCredentials`. -/
theorem c5_witness :
    authenticate (provision []) "nobody" "pw" "s" 0 =
      .error .InvalidCredentials ∧
    authenticate (provision []) "admin" "wrong" "s" 0 =
      .error .InvalidCredentials := by
  refine ⟨(c5_invalid_credentials_indistinguishable (provision [])
      "nobody" "pw" "s" 0).1 (by decide),
    (c5_invalid_credentials_indistinguishable (provision [])
      "admin" "wrong" "s" 0).2 ⟨"admin", hashPassword "password"⟩
      (by decide) (by decide)⟩

/-- A token whose `expires_at` (1) is already in the past but whose
signature was made with a different secret than the validator's. -/
def wrongSecretExpiredToken : Token :=
  { subject := "admin", issued_at := 0, expires_at := 1,
    signature := sign "other" "admin" 0 1 }

/-- C3 counterexample: a token with `expires_at = 1` in the past of
`now = 5` whose signature does not verify fails `validate` with
`MalformedToken`, not `ExpiredToken` — so expiry does not dominate
signature verification, and `validate` does not fail with `ExpiredToken`
exactly when `now ≥ expires_at`. -/
theorem c3_counterexample :
    wrongSecretExpiredToken.expires_at ≤ 5 ∧
    validate (some wrongSecretExpiredToken) "secret" 5 =
      .error .MalformedToken ∧
    validate (some wrongSecretExpiredToken) "secret" 5 ≠
      .error .ExpiredToken := by
  refine ⟨by decide, rfl, ?_⟩
  intro h
  exact absurd (Except.error.inj h) (by decide)

/-- C3 amended: for every token whose signature verifies against the
signing secret, `validate` fails with `ExpiredToken` exactly when
`now ≥ expires_at`; in particular a correctly signed token with
`expires_at` in the past always fails with `ExpiredToken`. -/
theorem c3_expired_iff_of_wellsigned (t : Token) (secret : String)
    (now : Nat)
    (hsig : t.signature = sign secret t.subject t.issued_at t.expires_at) :
    validate (some t) secret now = .error .ExpiredToken ↔
      t.expires_at ≤ now := by
  by_cases h : t.expires_at ≤ now
  · simp [validate, hsig, h]
  · simp [validate, hsig, h]

/-- A token correctly signed with the secret "secret" whose
`expires_at` (1) is already in the past of `now = 5`. -/
def wellSignedExpiredToken : Token :=
  { subject := "admin", issued_at := 0, expires_at := 1,
    signature := sign "secret" "admin" 0 1 }

/-- C3 witness: a correctly signed token with `expires_at = 1` fails
`validate` at `now = 5` with `ExpiredToken`. -/
theorem c3_witness :
    validate (some wellSignedExpiredToken) "secret" 5 =
      .error .ExpiredToken := by
  exact (c3_expired_iff_of_wellsigned wellSignedExpiredToken "secret" 5
    rfl).mpr (by decide)

/-- C4: a token whose signature was produced over its own payload with a
secret different from the validator's signing secret always fails
`validate` with `MalformedToken`, the same failure kind as an
unparseable token. -/
theorem c4_wrong_secret_malformed (t : Token) (secret otherSecret : String)
    (now : Nat) (hne : otherSecret ≠ secret)
    (hsig : t.signature =
      sign otherSecret t.subject t.issued_at t.expires_at) :
    validate (some t) secret now = .error .MalformedToken := by
  have hmis : t.signature ≠ sign secret t.subject t.issued_at t.expires_at := by
    rw [hsig]
    intro h
    exact hne (congrArg Signature.key h)
  simp [validate, hmis]

/-- A token over the subject "admin" signed with the secret "other". -/
def foreignSignedToken : Token :=
  { subject := "admin", issued_at := 0, expires_at := 100,
    signature := sign "other" "admin" 0 100 }

/-- C4 witness: a not-yet-expired token signed with "other" fails
`validate` under the secret "secret" with `MalformedToken`. -/
theorem c4_witness :
    validate (some foreignSignedToken) "secret" 0 =
      .error .MalformedToken := by
  exact c4_wrong_secret_malformed foreignSignedToken "secret" "other" 0
    (by decide) rfl

/-- C9: provisioning an empty store creates exactly one record, with
username "admin" and the hash of "password" stored in place of the
plaintext; a non-empty store is left unchanged (the model's only
store-writing operation is `provision`, so the record is never mutated
afterwards). -/
theorem c9_first_run_provisioning (store : List UserRecord) :
    (store = [] →
      provision store =
        [{ username := defaultUsername,
           password_hash := hashPassword defaultPassword }] ∧
      (provision store).length = 1 ∧
      defaultUsername = "admin" ∧ defaultPassword = "password" ∧
      ∀ u ∈ provision store,
        u.password_hash = hashPassword defaultPassword ∧
        u.password_hash ≠ defaultPassword) ∧
    (store ≠ [] → provision store = store) := by
  constructor
  · intro h
    subst h
    refine ⟨rfl, rfl, rfl, rfl, ?_⟩
    intro u hu
    simp [provision] at hu
    subst hu
    exact ⟨rfl, by decide⟩
  · intro h
    simp [provision, h]

/-- C9 witness: provisioning the empty store yields exactly the default
admin record, and a non-empty store is returned unchanged. -/
theorem c9_witness :
    provision [] =
      [{ username := defaultUsername,
         password_hash := hashPassword defaultPassword }] ∧
    provision [{ username := "ops", password_hash := "h" }] =
      [{ username := "ops", password_hash := "h" }] := by
  refine ⟨((c9_first_run_provisioning []).1 rfl).1, ?_⟩
  exact (c9_first_run_provisioning
    [{ username := "ops", password_hash := "h" }]).2 (by decide)

/-- C2: every route other than the login route answers 401 to a request
with no bearer token, with a token whose signature fails verification,
or with a token whose expiry has passed; a request with no bearer token
specifically fails validation with `MissingToken`. -/
theorem c2_protected_routes_401 (store : List UserRecord) (secret : String)
    (now limit : Nat) (sysReading : Option RawSample)
    (procReading : Option (List ProcessSnapshot)) :
    validate none secret now = .error .MissingToken ∧
    ((handleRequest store secret now sysReading procReading limit
        (.system none)).status = 401 ∧
      (handleRequest store secret now sysReading procReading limit
        (.processes none)).status = 401) ∧
    (∀ t : Token,
      t.signature ≠ sign secret t.subject t.issued_at t.expires_at →
      (handleRequest store secret now sysReading procReading limit
        (.system (some t))).status = 401 ∧
      (handleRequest store secret now sysReading procReading limit
        (.processes (some t))).status = 401) ∧
    (∀ t : Token, t.expires_at ≤ now →
      (handleRequest store secret now sysReading procReading limit
        (.system (some t))).status = 401 ∧
      (handleRequest store secret now sysReading procReading limit
        (.processes (some t))).status = 401) := by
  refine ⟨rfl, ⟨handleRequest_system_401 rfl, handleRequest_processes_401 rfl⟩,
    ?_, ?_⟩
  · intro t hsig
    have hv : validate (some t) secret now = .error .MalformedToken := by
      simp [validate, hsig]
    exact ⟨handleRequest_system_401 hv, handleRequest_processes_401 hv⟩
  · intro t hexp
    obtain ⟨e, hv⟩ := @validate_isError_of_expired t secret now hexp
    exact ⟨handleRequest_system_401 hv, handleRequest_processes_401 hv⟩

/-- An expired token used to exercise the 401 gating at a concrete
request. -/
def c2ExpiredToken : Token :=
  { subject := "admin", issued_at := 0, expires_at := 1,
    signature := sign "s" "admin" 0 1 }

/-- C2 witness: with no `Authorization` header validation fails with
`MissingToken` and both protected routes answer 401; an expired token
also yields 401. -/
theorem c2_witness :
    validate none "s" 9 = .error .MissingToken ∧
    (handleRequest (provision []) "s" 9 none none 20
      (.system none)).status = 401 ∧
    (handleRequest (provision []) "s" 9 none none 20
      (.processes none)).status = 401 ∧
    (handleRequest (provision []) "s" 9 none none 20
      (.system (some c2ExpiredToken))).status = 401 := by
  have h := c2_protected_routes_401 (provision []) "s" 9 20 none none
  exact ⟨h.1, h.2.1.1, h.2.1.2, (h.2.2.2 c2ExpiredToken (by decide)).1⟩

lemma percentOf_nonneg (used total : Nat) : 0 ≤ percentOf used total := by
  unfold percentOf
  split
  · exact le_refl 0
  · positivity

lemma percentOf_le_hundred (used total : Nat) (h : used ≤ total) :
    percentOf used total ≤ 100 := by
  unfold percentOf
  split
  · norm_num
  · rename_i ht
    have ht' : (0 : ℚ) < total := by
      exact_mod_cast Nat.pos_of_ne_zero ht
    have hq : (used : ℚ) / total ≤ 1 := by
      rw [div_le_one ht']
      exact_mod_cast h
    calc (used : ℚ) / total * 100 ≤ 1 * 100 :=
          mul_le_mul_of_nonneg_right hq (by norm_num)
      _ = 100 := by norm_num

/-- C6: every snapshot `sample` produces from a raw OS reading whose
counters satisfy the OS-level bounds (busy delta ≤ total delta for CPU,
used ≤ total for memory and disk) has `cpu_usage_percent` in [0, 100],
`used ≤ total` for memory and disk, and memory and disk percentages
equal to `used/total*100` (0 when the total is 0), both in [0, 100]. -/
theorem c6_snapshot_invariants (r : RawSample)
    (hcpu : r.cpu_busy_delta ≤ r.cpu_total_delta)
    (hmem : r.used_memory_bytes ≤ r.total_memory_bytes)
    (hdisk : r.used_disk_bytes ≤ r.total_disk_bytes) :
    ∀ snap, sample (some r) = .ok snap →
      (0 ≤ snap.cpu_usage_percent ∧ snap.cpu_usage_percent ≤ 100) ∧
      snap.used_memory_bytes ≤ snap.total_memory_bytes ∧
      snap.used_disk_bytes ≤ snap.total_disk_bytes ∧
      (snap.memory_usage_percent =
        if snap.total_memory_bytes = 0 then 0
        else (snap.used_memory_bytes : ℚ) / snap.total_memory_bytes * 100) ∧
      (0 ≤ snap.memory_usage_percent ∧ snap.memory_usage_percent ≤ 100) ∧
      (snap.disk_usage_percent =
        if snap.total_disk_bytes = 0 then 0
        else (snap.used_disk_bytes : ℚ) / snap.total_disk_bytes * 100) ∧
      (0 ≤ snap.disk_usage_percent ∧ snap.disk_usage_percent ≤ 100) := by
  intro snap hsnap
  have hs : snap = mkSnapshot r := by
    simpa [sample] using hsnap.symm
  subst hs
  refine ⟨⟨percentOf_nonneg _ _, percentOf_le_hundred _ _ hcpu⟩,
    hmem, hdisk, rfl, ⟨percentOf_nonneg _ _, percentOf_le_hundred _ _ hmem⟩,
    rfl, ⟨percentOf_nonneg _ _, percentOf_le_hundred _ _ hdisk⟩⟩

/-- A concrete raw OS reading used to exercise the sampler. -/
def demoReading : RawSample :=
  { cpu_busy_delta := 1, cpu_total_delta := 4,
    total_memory_bytes := 100, used_memory_bytes := 50,
    total_disk_bytes := 200, used_disk_bytes := 60,
    os_name := "linux", host_name := "host" }

/-- C6 witness: the snapshot sampled from the concrete reading has its
CPU and memory percentages within bounds. -/
theorem c6_witness :
    (0 ≤ (mkSnapshot demoReading).cpu_usage_percent ∧
      (mkSnapshot demoReading).cpu_usage_percent ≤ 100) ∧
    (mkSnapshot demoReading).used_memory_bytes ≤
      (mkSnapshot demoReading).total_memory_bytes := by
  have h := c6_snapshot_invariants demoReading (by decide) (by decide)
    (by decide) (mkSnapshot demoReading) rfl
  exact ⟨h.1, h.2.1⟩

lemma procLE_total (a b : ProcessSnapshot) : procLE a b || procLE b a := by
  unfold procLE
  simp only [Bool.or_eq_true, decide_eq_true_eq]
  rcases lt_trichotomy a.cpu_usage_percent b.cpu_usage_percent with h | h | h
  · exact Or.inr (Or.inl h)
  · rcases Nat.le_total a.pid b.pid with hp | hp
    · exact Or.inl (Or.inr ⟨h, hp⟩)
    · exact Or.inr (Or.inr ⟨h.symm, hp⟩)
  · exact Or.inl (Or.inl h)

lemma procLE_trans (a b c : ProcessSnapshot) :
    procLE a b → procLE b c → procLE a c := by
  unfold procLE
  simp only [decide_eq_true_eq]
  intro h1 h2
  rcases h1 with h1 | ⟨h1e, h1p⟩ <;> rcases h2 with h2 | ⟨h2e, h2p⟩
  · exact Or.inl (h2.trans h1)
  · exact Or.inl (h2e ▸ h1)
  · exact Or.inl (h1e ▸ h2)
  · exact Or.inr ⟨h1e.trans h2e, h1p.trans h2p⟩

/-- C7: for every limit and process set, `topProcesses`'s pure core
returns at most `limit` entries, sorted non-increasing by CPU usage with
ties broken by ascending pid; the full set is sorted under that ordering
as a permutation of the input, the result is exactly its first `limit`
entries, and when pids are pairwise distinct the result has no
duplicated entry. -/
theorem c7_topProcesses_ordering (limit : Nat) (ps : List ProcessSnapshot) :
    (topProcessesOf limit ps).length ≤ limit ∧
    List.Pairwise (fun a b => procLE a b = true) (topProcessesOf limit ps) ∧
    (sortProcesses ps).Perm ps ∧
    List.Pairwise (fun a b => procLE a b = true) (sortProcesses ps) ∧
    topProcessesOf limit ps = (sortProcesses ps).take limit ∧
    ((ps.map ProcessSnapshot.pid).Nodup → (topProcessesOf limit ps).Nodup) := by
  have hsorted : (sortProcesses ps).Pairwise (fun a b => procLE a b = true) :=
    List.sorted_mergeSort procLE_trans procLE_total ps
  have hperm : (sortProcesses ps).Perm ps := List.mergeSort_perm ps procLE
  refine ⟨?_, ?_, hperm, hsorted, rfl, ?_⟩
  · exact List.length_take_le limit (sortProcesses ps)
  · exact hsorted.sublist (List.take_sublist limit (sortProcesses ps))
  · intro hnd
    have hps : ps.Nodup := hnd.of_map
    have hsnd : (sortProcesses ps).Nodup := hperm.nodup_iff.mpr hps
    exact hsnd.sublist (List.take_sublist limit (sortProcesses ps))

/-- A concrete process set with a CPU tie between pids 3 and 2. -/
def demoProcs : List ProcessSnapshot :=
  [{ pid := 2, name := "a", cpu_usage_percent := 5, memory_bytes := 10 },
   { pid := 1, name := "b", cpu_usage_percent := 9, memory_bytes := 20 },
   { pid := 3, name := "c", cpu_usage_percent := 5, memory_bytes := 30 }]

/-- C7 witness: on the concrete process set, the top 2 has at most 2
entries and no duplicated entry. -/
theorem c7_witness :
    (topProcessesOf 2 demoProcs).length ≤ 2 ∧
    (topProcessesOf 2 demoProcs).Nodup := by
  have h := c7_topProcesses_ordering 2 demoProcs
  exact ⟨h.1, h.2.2.2.2.2 (by decide)⟩

/-- C8: when the underlying OS query fails or times out (outcome
`none`), `sample` and `topProcesses` fail with `MetricsUnavailable` and
return no snapshot at all, and the API layer answers 503 on both
protected routes for any validly authenticated request. -/
theorem c8_metrics_unavailable_503 (store : List UserRecord)
    (secret : String) (now limit : Nat) (bearer : Option Token)
    (sub : String) (hv : validate bearer secret now = .ok sub)
    (sysReading : Option RawSample)
    (procReading : Option (List ProcessSnapshot)) :
    sample none = .error .MetricsUnavailable ∧
    topProcesses limit none = .error .MetricsUnavailable ∧
    (handleRequest store secret now none procReading limit
      (.system bearer)).status = 503 ∧
    (handleRequest store secret now sysReading none limit
      (.processes bearer)).status = 503 := by
  refine ⟨rfl, rfl, ?_, ?_⟩
  · simp [handleRequest, hv, sample]
  · simp [handleRequest, hv, topProcesses]

/-- A valid, unexpired token signed with the secret "s". -/
def c8FreshToken : Token :=
  { subject := "admin", issued_at := 0, expires_at := 10,
    signature := sign "s" "admin" 0 10 }

/-- C8 witness: with a valid token but a failed OS query, both protected
routes answer 503. -/
theorem c8_witness :
    (handleRequest (provision []) "s" 0 none none 20
      (.system (some c8FreshToken))).status = 503 ∧
    (handleRequest (provision []) "s" 0 none none 20
      (.processes (some c8FreshToken))).status = 503 := by
  have h := c8_metrics_unavailable_503 (provision []) "s" 0 20
    (some c8FreshToken) "admin" rfl none none
  exact ⟨h.2.2.1, h.2.2.2⟩

/-- C10: whenever a poll gets a 401 from a protected endpoint, the
client transitions (in that same step) to the logged-out state: token
removed from localStorage, in-memory token cleared — so the derived
`Authorization` header is dropped — and displayed metrics cleared. -/
theorem c10_client_discards_token_on_401 (s : ClientState) (tk : String)
    (htok : s.token = some tk) (timeLabel : String) :
    fetchDataStep s timeLabel (.failure (some 401)) = handleLogout s ∧
    (fetchDataStep s timeLabel (.failure (some 401))).localStorageToken
      = none ∧
    (fetchDataStep s timeLabel (.failure (some 401))).token = none ∧
    authHeader (fetchDataStep s timeLabel (.failure (some 401))) = none ∧
    (fetchDataStep s timeLabel (.failure (some 401))).metrics = none := by
  have hstep : fetchDataStep s timeLabel (.failure (some 401))
      = handleLogout s := by
    simp [fetchDataStep, htok]
  refine ⟨hstep, ?_, ?_, ?_, ?_⟩ <;> rw [hstep] <;> simp [handleLogout, authHeader]

/-- A concrete logged-in client state holding a token and metrics. -/
def demoClientState : ClientState :=
  { localStorageToken := some "tok", token := some "tok",
    metrics := some (mkSnapshot demoReading), processes := [],
    history := [] }

/-- C10 witness: from the concrete logged-in state, a 401 clears the
stored token, the in-memory token, the derived header and the
metrics. -/
theorem c10_witness :
    ClientState.localStorageToken
      (fetchDataStep demoClientState "t0" (.failure (some 401))) = none ∧
    (fetchDataStep demoClientState "t0" (.failure (some 401))).token
      = none ∧
    authHeader (fetchDataStep demoClientState "t0" (.failure (some 401)))
      = none ∧
    (fetchDataStep demoClientState "t0" (.failure (some 401))).metrics
      = none := by
  have h := c10_client_discards_token_on_401 demoClientState "tok" rfl "t0"
  exact ⟨h.2.1, h.2.2.1, h.2.2.2.1, h.2.2.2.2⟩

end RustPanel
